import Mathlib

/-!
Verification development for the MedFlow Pro server (a multi-tenant
hospital workflow application: Express + Socket.IO + Mongoose).

The JavaScript source is shallowly embedded: MongoDB documents become Lean
structures, collections become lists, ObjectIds become natural numbers
(MongoDB orders ObjectIds chronologically, so Nat ordering is faithful for
the sort by _id used in the patients listing), timestamps become
milliseconds-since-epoch naturals, and each HTTP / socket handler becomes a
pure function from the database state and the request to the new state and
the response (with the emitted Socket.IO events made explicit).  JavaScript
falsiness of an optional string field is modeled by jsTruthy below.
Cryptographic randomness (crypto.randomBytes) and the external auth module
(./auth, not part of the sources) are abstracted as parameters.
-/

namespace MedFlow

/-- Characters of needle appear as a prefix of hay. -/
def startsWithL : List Char → List Char → Bool
  | [], _ => true
  | _ :: _, [] => false
  | a :: as, b :: bs => a = b && startsWithL as bs

/-- Substring containment on character lists (semantics of JS String.includes). -/
def containsSubL (needle : List Char) : List Char → Bool
  | [] => startsWithL needle []
  | b :: bs => startsWithL needle (b :: bs) || containsSubL needle bs

/-- JS hay.includes(needle). -/
def strContains (hay needle : String) : Bool :=
  containsSubL needle.data hay.data

/-- JS s.toLowerCase() (ASCII-faithful). -/
def lowerStr (s : String) : String :=
  ⟨s.data.map Char.toLower⟩

/-- JS !s || !s.trim(): the string is absent, empty or whitespace-only. -/
def nameBlank (s : String) : Bool :=
  s.data.all Char.isWhitespace

/-- JS truthiness of an optional string field (undefined, null and the
empty string are falsy). -/
def jsTruthy : Option String → Bool
  | none => false
  | some s => !s.isEmpty

/-- JS (x || d) for an optional string x. -/
def jsOrStr (x : Option String) (d : String) : String :=
  match x with
  | none => d
  | some s => if s.isEmpty then d else s

/-! ## Data model (src/database.js schemas)

Only the fields the server code reads or writes are carried; all appear in
the Mongoose schemas.  ObjectId-valued fields are Nat, Date fields are Nat
(ms since epoch), optional fields are Option. -/

/-- HospitalSchema (src/database.js lines 15-24). -/
structure Hospital where
  id : Nat
  name : String
  email : String
  phone : Option String
  address : Option String
  subscriptionStatus : String
  subscriptionExpiry : Option String
  lastLogin : Option Nat
  deriving DecidableEq, Repr

/-- UserSchema (src/database.js lines 26-36); the compound unique index on
(hospitalId, username) is embedded in insertUser below. -/
structure User where
  id : Nat
  hospitalId : Nat
  username : String
  email : Option String
  role : String
  password : String
  lastLogin : Option Nat
  deriving DecidableEq, Repr

/-- PatientSchema (src/database.js lines 38-69). -/
structure Patient where
  id : Nat
  hospitalId : Nat
  token : Nat
  publicToken : Option String
  name : String
  age : Option Nat
  gender : Option String
  phone : Option String
  address : Option String
  patientType : String
  opdIpd : String
  department : String
  doctorId : Option String
  reason : Option String
  status : String
  registeredAt : Nat
  appointmentDate : Option String
  vitals : String
  prescription : Option String
  diagnosis : Option String
  pharmacyState : Option String
  history : String
  cost : Nat
  reports : Option String
  deriving DecidableEq, Repr

/-- LabTestSchema (src/database.js lines 84-103). -/
structure LabTest where
  id : Nat
  hospitalId : Nat
  patientId : Nat
  testName : String
  testType : Option String
  orderedBy : String
  orderedAt : Nat
  status : String
  result : Option String
  resultDate : Option Nat
  priority : String
  sampleStatus : String
  technicianId : Option Nat
  machineId : Option String
  sampleCollectedAt : Option Nat
  sampleCollectedBy : Option String
  rejectionReason : Option String
  startedAt : Option Nat
  completedAt : Option Nat
  deriving DecidableEq, Repr

/-- LabResultSchema (src/database.js lines 105-113). -/
structure LabResult where
  testId : Nat
  parameterName : String
  value : Option String
  unit : Option String
  referenceRange : Option String
  isAbnormal : Bool
  notes : Option String
  deriving DecidableEq, Repr

/-! ## Lab test status endpoints (C2) -/

/-- POST /api/lab/tests/:id/process body applied to one test
(src/database.js lines 878-896): update = \x7b status \x7d, plus startedAt
and machineId when the client sent status 'in_progress', plus completedAt
when the client sent 'completed'.  The client-supplied status string is
assigned unconditionally. -/
def processUpdate (t : LabTest) (status : String) (machineId : Option String)
    (now : Nat) : LabTest :=
  if status = "in_progress" then
    { t with status := status, startedAt := some now, machineId := machineId }
  else if status = "completed" then
    { t with status := status, completedAt := some now }
  else
    { t with status := status }

/-- POST /api/lab/tests/:id/sample body applied to one test
(src/database.js lines 854-875): update = \x7b sampleStatus,
sampleCollectedBy, sampleCollectedAt \x7d, plus rejectionReason when the
client sent status 'rejected'. -/
def sampleUpdate (t : LabTest) (status : String) (rejectionReason : Option String)
    (user : String) (now : Nat) : LabTest :=
  if status = "rejected" then
    { t with sampleStatus := status, sampleCollectedBy := some user,
             sampleCollectedAt := some now, rejectionReason := rejectionReason }
  else
    { t with sampleStatus := status, sampleCollectedBy := some user,
             sampleCollectedAt := some now }

/-- The /process route handler over the LabTest collection: findByIdAndUpdate
applies the update to the matching document; the response is success in
every case (no validation of the supplied status). -/
def apiProcess (db : List LabTest) (id : Nat) (status : String)
    (machineId : Option String) (now : Nat) : List LabTest × Bool :=
  (db.map (fun t => if t.id = id then processUpdate t status machineId now else t),
   true)

/-- The /sample route handler over the LabTest collection. -/
def apiSample (db : List LabTest) (id : Nat) (status : String)
    (rejectionReason : Option String) (user : String) (now : Nat) :
    List LabTest × Bool :=
  (db.map (fun t => if t.id = id then sampleUpdate t status rejectionReason user now else t),
   true)

/-! ## User uniqueness (C4) and declared unique constraints (C7) -/

/-- A new user collides with an existing one on the compound key
(hospitalId, username) of the unique index
UserSchema.index(\x7b hospitalId: 1, username: 1 \x7d, \x7b unique: true \x7d)
(src/database.js line 36). -/
def userKeyClash (db : List User) (u : User) : Bool :=
  db.any (fun v => v.hospitalId = u.hospitalId && v.username = u.username)

/-- User.create under the unique compound index: MongoDB rejects the insert
with a duplicate-key error when the (hospitalId, username) pair already
exists, and appends the document otherwise. -/
def insertUser (db : List User) (u : User) : Except String (List User) :=
  if userKeyClash db u then .error "E11000 duplicate key"
  else .ok (db ++ [u])

/-- States of the User collection reachable from empty by successful
inserts (the server only ever creates users, never updates their key
fields: the sole User.create is in POST /api/hospitals/register). -/
inductive UsersReachable : List User → Prop
  | nil : UsersReachable []
  | step (db : List User) (u : User) (h : UsersReachable db)
      (hok : userKeyClash db u = false) : UsersReachable (db ++ [u])

/-- No two users of a collection share the compound key. -/
def UserKeyUnique (db : List User) : Prop :=
  db.Pairwise (fun a b => ¬(a.hospitalId = b.hospitalId ∧ a.username = b.username))

/-- The unique: true field markers declared in the Mongoose schemas of
src/database.js, as (model, indexed fields): Hospital.email (line 17),
the compound User index (line 36), PrescriptionTemplate.hospitalId
(line 165).  No other schema field carries unique: true. -/
def uniqueConstraints : List (String × List String) :=
  [("Hospital", ["email"]),
   ("User", ["hospitalId", "username"]),
   ("PrescriptionTemplate", ["hospitalId"])]

/-- Hospital.create as guarded by POST /api/hospitals/register
(src/database.js lines 375-378) and by the unique index on Hospital.email
(line 17): a duplicate email is rejected. -/
def insertHospital (db : List Hospital) (h : Hospital) :
    Except String (List Hospital) :=
  if db.any (fun g => g.email = h.email) then
    .error "Hospital email already registered"
  else .ok (db ++ [h])

/-! ## Patient read endpoints (C1) -/

/-- Insert into a list kept in descending key order. -/
def insertDescBy {α : Type} (key : α → Nat) (a : α) : List α → List α
  | [] => [a]
  | b :: t => if key b ≤ key a then a :: b :: t else b :: insertDescBy key a t

/-- Sort a list into descending key order (the Mongo sorts by _id: -1 and
registeredAt: -1; ObjectIds are modeled as increasing naturals). -/
def sortDescBy {α : Type} (key : α → Nat) : List α → List α
  | [] => []
  | a :: t => insertDescBy key a (sortDescBy key t)

/-- The Mongo query built by GET /api/patients (src/database.js lines
638-640): hospitalId is added to the query only when the session has one,
phone only when the client supplied one. -/
def patientQueryMatch (sessionHospitalId : Option Nat) (phone : Option String)
    (p : Patient) : Bool :=
  (match sessionHospitalId with
   | some h => p.hospitalId = h
   | none => true) &&
  (match phone with
   | some ph => p.phone = some ph
   | none => true)

/-- GET /api/patients (src/database.js lines 633-661): filter by the
optional session hospital and optional phone, sort by _id descending,
skip (page-1)*limit, take limit. -/
def apiPatients (db : List Patient) (sessionHospitalId : Option Nat)
    (phone : Option String) (page limit : Nat) : List Patient :=
  (((sortDescBy (fun p => p.id) (db.filter (patientQueryMatch sessionHospitalId phone)))).drop
      ((page - 1) * limit)).take limit

/-- GET /api/patients/:id (src/database.js lines 663-675): findOne on _id,
with the hospitalId condition added only when the session has one. -/
def apiPatientById (db : List Patient) (sessionHospitalId : Option Nat)
    (id : Nat) : Option Patient :=
  db.find? (fun p =>
    p.id = id &&
    (match sessionHospitalId with
     | some h => p.hospitalId = h
     | none => true))

/-- GET /api/export (src/database.js lines 707-764): the only condition on
the Patient collection is registeredAt >= startDate (start of the current
month or year); the session's hospitalId is never consulted. -/
def apiExport (db : List Patient) (startDate : Nat) : List Patient :=
  sortDescBy (fun p => p.registeredAt) (db.filter (fun p => startDate ≤ p.registeredAt))

/-- A patient record with the fields the isolation arguments do not care
about set to the values the registration handler uses. -/
def mkPatient (id hospitalId token : Nat) (name department : String)
    (registeredAt : Nat) : Patient :=
  { id := id, hospitalId := hospitalId, token := token, publicToken := none,
    name := name, age := none, gender := none, phone := none, address := none,
    patientType := "New", opdIpd := "OPD", department := department,
    doctorId := none, reason := none, status := "waiting",
    registeredAt := registeredAt, appointmentDate := none, vitals := "\x7b\x7d",
    prescription := none, diagnosis := none, pharmacyState := none,
    history := "[]", cost := 0, reports := none }

/-! ## Socket.IO handlers (C3, C5, C8)

Each handler becomes a pure function taking the relevant collections, the
event payload, a fresh ObjectId and the current time, plus a dbFail flag
that makes the awaited database operation inside the try block throw (the
failure mode the spec talks about); it returns the new collections together
with the list of Socket.IO emissions the handler performs. -/

/-- Where an emission goes: socket.emit (back to the originating client),
io.to(room).emit, or io.emit (broadcast). -/
inductive EmitTarget
  | originClient
  | room (name : String)
  | broadcast
  deriving DecidableEq, Repr

/-- One Socket.IO emission; isError is true when the payload carries an
error (an error message or success: false). -/
structure Emission where
  target : EmitTarget
  event : String
  isError : Bool
  deriving DecidableEq, Repr

/-- Some emission in the list goes back to the originating client with an
error payload. -/
def emitsErrorToClient (ems : List Emission) : Bool :=
  ems.any (fun e =>
    (match e.target with
     | EmitTarget.originClient => true
     | _ => false) && e.isError)

/-- The static doctors array (src/database.js lines 320-325). -/
structure Doctor where
  id : String
  name : String
  dept : String
  status : String
  deriving DecidableEq, Repr

def doctors : List Doctor :=
  [{ id := "1", name := "Dr. Asha Patel", dept := "General", status := "available" },
   { id := "2", name := "Dr. Rajesh Singh", dept := "Orthopedics", status := "available" },
   { id := "3", name := "Dr. Nisha Rao", dept := "Gynecology", status := "available" },
   { id := "4", name := "Dr. Vikram Shah", dept := "Cardiology", status := "available" }]

/-- Payload of the register-patient socket event.  vitals and history hold
the JSON serializations the handler stores (JSON.stringify of the supplied
object, with \x7b\x7d resp. [] when absent). -/
structure RegisterData where
  name : String
  department : Option String
  hospitalId : Option Nat
  age : Option Nat
  gender : Option String
  phone : Option String
  address : Option String
  patientType : Option String
  opdIpd : Option String
  doctorId : Option String
  reason : Option String
  vitals : String
  prescription : Option String
  history : String
  cost : Option Nat
  deriving DecidableEq, Repr

/-- socket 'register-patient' (src/database.js lines 1236-1288): validate
the name, count the patients of the same (hospitalId, department), assign
token = count + 1, auto-assign an available doctor of the department when
none was supplied, insert the patient, and emit patient-registered to the
doctors and reception rooms, queue-updated broadcast, and patient-registered
to the client; on a thrown database error, emit patient-registration-error
to the client only. -/
def registerPatientH (db : List Patient) (data : RegisterData)
    (freshId now : Nat) (dbFail : Bool) :
    List Patient × Option Patient × List Emission :=
  let dept := jsOrStr data.department "General"
  let hid := data.hospitalId.getD 0
  if nameBlank data.name then
    (db, none, [⟨EmitTarget.originClient, "patient-registration-error", true⟩])
  else if dbFail then
    (db, none, [⟨EmitTarget.originClient, "patient-registration-error", true⟩])
  else
    let count := (db.filter (fun p => p.department = dept && p.hospitalId = hid)).length
    let assignedDoctor :=
      if jsTruthy data.doctorId then data.doctorId
      else
        match doctors.find? (fun d => d.dept = dept && d.status = "available") with
        | some d => some d.id
        | none => none
    let newPatient : Patient :=
      { id := freshId, hospitalId := hid, token := count + 1, publicToken := none,
        name := if data.name.isEmpty then "Unknown" else data.name,
        age := data.age, gender := data.gender, phone := data.phone,
        address := data.address, patientType := jsOrStr data.patientType "New",
        opdIpd := jsOrStr data.opdIpd "OPD", department := dept,
        doctorId := assignedDoctor, reason := data.reason, status := "waiting",
        registeredAt := now, appointmentDate := none, vitals := data.vitals,
        prescription := data.prescription, diagnosis := none,
        pharmacyState := none, history := data.history,
        cost := data.cost.getD 0, reports := none }
    (db ++ [newPatient], some newPatient,
     [⟨EmitTarget.room "doctors", "patient-registered", false⟩,
      ⟨EmitTarget.room "reception", "patient-registered", false⟩,
      ⟨EmitTarget.broadcast, "queue-updated", false⟩,
      ⟨EmitTarget.originClient, "patient-registered", false⟩])

/-- JS: if (x) target = x, for a string-valued field. -/
def jsSet (x : Option String) (cur : String) : String :=
  match x with
  | none => cur
  | some s => if s.isEmpty then cur else s

/-- socket 'move-patient' (src/database.js lines 1290-1308): load the
patient, overwrite status / doctorId / pharmacyState when supplied, save,
and emit patient-updated broadcast plus queue-updated to the doctors,
reception and pharmacy rooms; a missing patient returns silently, and the
catch block only logs the error: nothing is emitted to the client. -/
def movePatientH (db : List Patient) (id : Nat)
    (status doctorId pharmacyState : Option String) (dbFail : Bool) :
    List Patient × List Emission :=
  if dbFail then (db, [])
  else
    match db.find? (fun p => p.id = id) with
    | none => (db, [])
    | some p =>
      let p' := { p with
        status := jsSet status p.status,
        doctorId := if jsTruthy doctorId then doctorId else p.doctorId,
        pharmacyState := if jsTruthy pharmacyState then pharmacyState else p.pharmacyState }
      (db.map (fun q => if q.id = id then p' else q),
       [⟨EmitTarget.broadcast, "patient-updated", false⟩,
        ⟨EmitTarget.room "doctors", "queue-updated", false⟩,
        ⟨EmitTarget.room "reception", "queue-updated", false⟩,
        ⟨EmitTarget.room "pharmacy", "queue-updated", false⟩])

/-- The lab keyword list of the update-prescription handler
(src/database.js line 1316). -/
def labKeywords : List String :=
  ["test", "lab", "cbc", "blood", "urine", "x-ray", "scan", "profile", "panel"]

/-- prescription.toLowerCase() contains one of the lab keywords. -/
def hasLabKeyword (prescription : String) : Bool :=
  labKeywords.any (fun k => strContains (lowerStr prescription) k)

/-- Milliseconds per day. -/
def dayMs : Nat := 86400000

/-- today.setHours(0,0,0,0): the midnight opening the current day. -/
def startOfDay (now : Nat) : Nat := (now / dayMs) * dayMs

/-- Two instants fall on the same calendar day. -/
def sameDay (a b : Nat) : Prop := a / dayMs = b / dayMs

/-- socket 'update-prescription' (src/database.js lines 1310-1357): store
the new prescription text on the patient; when the lowercased text contains
a lab keyword and no pending LabTest of this patient ordered at or after
today's midnight exists, create one pending LabTest (ordered now, normal
priority, sample pending) and notify the lab room; then emit
prescription-updated to the doctors room, the reception room and the
client.  A missing patient returns silently and the catch block only logs:
nothing is emitted to the client on a database failure. -/
def updatePrescriptionH (patients : List Patient) (tests : List LabTest)
    (id : Nat) (prescription : String) (freshId now : Nat) (dbFail : Bool) :
    List Patient × List LabTest × List Emission :=
  if dbFail then (patients, tests, [])
  else
    match patients.find? (fun p => p.id = id) with
    | none => (patients, tests, [])
    | some p =>
      let p' := { p with prescription := some prescription }
      let patients' := patients.map (fun q => if q.id = id then p' else q)
      let updEmits : List Emission :=
        [⟨EmitTarget.room "doctors", "prescription-updated", false⟩,
         ⟨EmitTarget.room "reception", "prescription-updated", false⟩,
         ⟨EmitTarget.originClient, "prescription-updated", false⟩]
      if hasLabKeyword prescription then
        if tests.any (fun t =>
            t.patientId = id && (startOfDay now ≤ t.orderedAt) && t.status = "pending") then
          (patients', tests, updEmits)
        else
          let doctorName :=
            match doctors.find? (fun d => p'.doctorId = some d.id) with
            | some d => d.name
            | none => "Doctor"
          let newTest : LabTest :=
            { id := freshId, hospitalId := p'.hospitalId, patientId := id,
              testName := "Lab Test Request (from Prescription)", testType := none,
              orderedBy := doctorName, orderedAt := now, status := "pending",
              result := none, resultDate := none, priority := "normal",
              sampleStatus := "pending", technicianId := none, machineId := none,
              sampleCollectedAt := none, sampleCollectedBy := none,
              rejectionReason := none, startedAt := none, completedAt := none }
          (patients', tests ++ [newTest],
           ⟨EmitTarget.room "lab", "lab-update", false⟩ :: updEmits)
      else
        (patients', tests, updEmits)

/-- socket 'create-lab-request' (src/database.js lines 1359-1389): load the
patient (emitting lab-request-created with success: false when missing),
create a pending LabTest, and emit lab-update to the lab room and
lab-request-created with success: true to the client; the catch block emits
lab-request-created with success: false to the client. -/
def createLabRequestH (patients : List Patient) (tests : List LabTest)
    (patientId : Nat) (testName : Option String) (doctorId : Option String)
    (freshId now : Nat) (dbFail : Bool) : List LabTest × List Emission :=
  if dbFail then (tests, [⟨EmitTarget.originClient, "lab-request-created", true⟩])
  else
    match patients.find? (fun p => p.id = patientId) with
    | none => (tests, [⟨EmitTarget.originClient, "lab-request-created", true⟩])
    | some p =>
      let doctorName :=
        match doctors.find? (fun d => doctorId = some d.id) with
        | some d => d.name
        | none => "Doctor"
      let newTest : LabTest :=
        { id := freshId, hospitalId := p.hospitalId, patientId := patientId,
          testName := jsOrStr testName "Manual Lab Request", testType := none,
          orderedBy := doctorName, orderedAt := now, status := "pending",
          result := none, resultDate := none, priority := "normal",
          sampleStatus := "pending", technicianId := none, machineId := none,
          sampleCollectedAt := none, sampleCollectedBy := none,
          rejectionReason := none, startedAt := none, completedAt := none }
      (tests ++ [newTest],
       [⟨EmitTarget.room "lab", "lab-update", false⟩,
        ⟨EmitTarget.originClient, "lab-request-created", false⟩])

/-! ## Saving lab results (C6) -/

/-- One entry of the results array POSTed to /api/lab/tests/:id/results. -/
structure ResultInput where
  parameterName : String
  value : Option String
  unit : Option String
  referenceRange : Option String
  isAbnormal : Bool
  notes : Option String
  deriving DecidableEq, Repr

/-- The LabTest and LabResult collections together. -/
structure LabState where
  tests : List LabTest
  results : List LabResult
  deriving DecidableEq, Repr

/-- Which of the three awaited writes of the handler throws. -/
inductive ResultsFault
  | ok
  | atInsert
  | atStatusUpdate
  deriving DecidableEq, Repr

/-- The LabResult document built from one posted entry
(src/database.js lines 912-920). -/
def resultDoc (testId : Nat) (r : ResultInput) : LabResult :=
  { testId := testId, parameterName := r.parameterName, value := r.value,
    unit := r.unit, referenceRange := r.referenceRange,
    isAbnormal := r.isAbnormal, notes := r.notes }

/-- POST /api/lab/tests/:id/results (src/database.js lines 899-934): three
separate awaited writes inside one try block and no database transaction:
LabResult.deleteMany on the test, LabResult.insertMany of the new docs,
LabTest.findByIdAndUpdate to completed.  fault injects a thrown error at
the named write; the catch block only answers HTTP 500, leaving every
earlier write in place (Bool result: did the request succeed). -/
def saveLabResults (st : LabState) (testId : Nat) (results : List ResultInput)
    (fault : ResultsFault) (now : Nat) : LabState × Bool :=
  let st1 : LabState :=
    { st with results := st.results.filter (fun r => !(r.testId = testId)) }
  match fault with
  | .atInsert => (st1, false)
  | .atStatusUpdate =>
      ({ st1 with results := st1.results ++ results.map (resultDoc testId) }, false)
  | .ok =>
      let st2 : LabState :=
        { st1 with results := st1.results ++ results.map (resultDoc testId) }
      ({ st2 with tests := st2.tests.map (fun t =>
          if t.id = testId then { t with status := "completed", resultDate := some now }
          else t) }, true)

/-! ## Prescription PDF public token (C9) -/

/-- The patient lookup of GET /api/prescription-pdf/:patientId
(src/database.js lines 1072-1082): with a token query parameter, findOne on
(_id, publicToken); otherwise findOne on (_id, session hospitalId), with
401 (none) when the session has no hospital. -/
def pdfPatientLookup (db : List Patient) (sessionHospitalId : Option Nat)
    (patientId : Nat) (tokenQ : Option String) : Option Patient :=
  match tokenQ with
  | some tk => db.find? (fun p => p.id = patientId && p.publicToken = some tk)
  | none =>
      match sessionHospitalId with
      | none => none
      | some h => db.find? (fun p => p.id = patientId && p.hospitalId = h)

/-- The effect of a successful GET /api/prescription-pdf/:patientId on the
Patient collection (src/database.js lines 1083-1088): when the found
patient's publicToken is falsy, patient.publicToken = generatePublicToken()
followed by patient.save(); otherwise nothing is written.  The fresh hex
string of crypto.randomBytes(32) is the freshTok oracle input.  Returns the
collection and the patient record the PDF is rendered from. -/
def pdfPatientEffect (db : List Patient) (sessionHospitalId : Option Nat)
    (patientId : Nat) (tokenQ : Option String) (freshTok : String) :
    Option (List Patient × Patient) :=
  match pdfPatientLookup db sessionHospitalId patientId tokenQ with
  | none => none
  | some p =>
      if jsTruthy p.publicToken then some (db, p)
      else
        some (db.map (fun q =>
            if q.id = p.id then { p with publicToken := some freshTok } else q),
          { p with publicToken := some freshTok })

/-! ## Login (C10) -/

structure LoginRequest where
  hospitalPassword : String
  username : String
  userPassword : String
  deriving DecidableEq, Repr

/-- The express-session fields the login endpoint sets. -/
structure Session where
  userId : Option Nat
  hospitalId : Option Nat
  username : Option String
  role : Option String
  deriving DecidableEq, Repr

/-- The responses of POST /api/login: 400 Missing credentials, 403
Subscription expired, 401 Invalid hospital password, 401 Invalid username
or password, 200 success. -/
inductive LoginResponse
  | missingCredentials
  | subscriptionExpired
  | invalidHospitalPassword
  | invalidUserOrPassword
  | success (hospitalId : Nat) (username role : String)
  deriving DecidableEq, Repr

def LoginResponse.isFailure : LoginResponse → Bool
  | .success _ _ _ => false
  | _ => true

/-- POST /api/login (src/database.js lines 428-487).  verifyHospital and
comparePassword abstract the external ./auth module (not among the
sources).  The handler scans all hospitals in database order and breaks at
the first one whose derived password matches; if that hospital's
subscription is not active it answers 403 right there, before any user
lookup.  Returns the response, the session, and the Hospital and User
collections after the lastLogin updates of the success path. -/
def apiLogin (verifyHospital : Nat → String → Bool)
    (comparePassword : String → String → Bool)
    (hospitals : List Hospital) (users : List User)
    (req : LoginRequest) (sess : Session) (now : Nat) :
    LoginResponse × Session × List Hospital × List User :=
  if req.hospitalPassword.isEmpty || req.username.isEmpty || req.userPassword.isEmpty then
    (.missingCredentials, sess, hospitals, users)
  else
    match hospitals.find? (fun h => verifyHospital h.id req.hospitalPassword) with
    | none => (.invalidHospitalPassword, sess, hospitals, users)
    | some h =>
      if h.subscriptionStatus ≠ "active" then
        (.subscriptionExpired, sess, hospitals, users)
      else
        match users.find? (fun u => u.hospitalId = h.id && u.username = req.username) with
        | none => (.invalidUserOrPassword, sess, hospitals, users)
        | some u =>
          if !comparePassword req.userPassword u.password then
            (.invalidUserOrPassword, sess, hospitals, users)
          else
            (.success h.id u.username u.role,
             { userId := some u.id, hospitalId := some h.id,
               username := some u.username, role := some u.role },
             hospitals.map (fun g =>
               if g.id = h.id then { g with lastLogin := some now } else g),
             users.map (fun v =>
               if v.id = u.id then { v with lastLogin := some now } else v))

/-! ## Concrete sample data used by witnesses -/

/-- Sample register-patient payload used by the C3 witness. -/
def sampleRegData : RegisterData :=
  { name := "John", department := some "General", hospitalId := some 1,
    age := none, gender := none, phone := none, address := none,
    patientType := none, opdIpd := none, doctorId := none, reason := none,
    vitals := "\x7b\x7d", prescription := none, history := "[]", cost := none }

/-- The one stored hemoglobin result used by the C6 witness. -/
def hemoResult : LabResult :=
  { testId := 3, parameterName := "Hemoglobin", value := some "14.5",
    unit := some "g/dL", referenceRange := none, isAbnormal := false,
    notes := none }

/-- The lab state holding only that result. -/
def hemoState : LabState :=
  { tests := [], results := [hemoResult] }

end MedFlow

namespace MedFlow

/-- Element membership is preserved by ordered insertion. -/
theorem mem_insertDescBy {α : Type} (key : α → Nat) (a x : α) (l : List α) :
    x ∈ insertDescBy key a l ↔ x = a ∨ x ∈ l := by
  induction l with
  | nil => simp [insertDescBy]
  | cons b t ih =>
    by_cases h : key b ≤ key a
    · simp [insertDescBy, h]
    · simp [insertDescBy, h, ih]
      tauto

/-- Sorting keeps exactly the members of the list. -/
theorem mem_sortDescBy {α : Type} (key : α → Nat) (x : α) (l : List α) :
    x ∈ sortDescBy key l ↔ x ∈ l := by
  induction l with
  | nil => simp [sortDescBy]
  | cons a t ih => simp [sortDescBy, mem_insertDescBy, ih]

/-- C2: POST /api/lab/tests/:id/process sets the status field of every test
to exactly the client-supplied string s by direct assignment, whatever the
test's current status, and POST /api/lab/tests/:id/sample does the same for
sampleStatus: no transition table is consulted, no value of s is rejected
(the route always reports success), so any transition succeeds. -/
theorem labStatus_direct_assignment (t : LabTest) (s : String)
    (m r : Option String) (u : String) (now : Nat) :
    (processUpdate t s m now).status = s ∧
    (sampleUpdate t s r u now).sampleStatus = s ∧
    (apiProcess [t] t.id s m now).2 = true ∧
    (apiSample [t] t.id s r u now).2 = true ∧
    (apiProcess [t] t.id s m now).1 = [processUpdate t s m now] := by
  refine ⟨?_, ?_, rfl, rfl, ?_⟩
  · unfold processUpdate
    by_cases h1 : s = "in_progress" <;> by_cases h2 : s = "completed" <;>
      simp [h1, h2]
  · unfold sampleUpdate
    by_cases h1 : s = "rejected" <;> simp [h1]
  · simp [apiProcess]

/-- C4: creating a second user with a username already used in the same
hospital fails (the insert is rejected with a duplicate-key error); a user
whose username clashes with no user of its own hospital is accepted, so the
same username may exist in two different hospitals; and every reachable
state of the User collection satisfies the compound uniqueness of
(hospitalId, username). -/
theorem user_compound_uniqueness (db : List User) (u v : User)
    (hv : v ∈ db) (hh : u.hospitalId = v.hospitalId) (hu : u.username = v.username) :
    insertUser db u = .error "E11000 duplicate key" ∧
    (∀ db' : List User, ∀ w : User,
      (∀ x ∈ db', x.hospitalId = w.hospitalId → x.username ≠ w.username) →
      insertUser db' w = .ok (db' ++ [w])) ∧
    (∀ db' : List User, UsersReachable db' → UserKeyUnique db') := by
  refine ⟨?_, ?_, ?_⟩
  · have hclash : userKeyClash db u = true := by
      simp only [userKeyClash, List.any_eq_true]
      exact ⟨v, hv, by simp [hh, hu]⟩
    simp [insertUser, hclash]
  · intro db' w hno
    have hclash : userKeyClash db' w = false := by
      simp only [userKeyClash, List.any_eq_false]
      intro x hx
      simp only [Bool.and_eq_true, decide_eq_true_eq, not_and]
      intro hxh
      exact fun hxu => hno x hx hxh hxu
    simp [insertUser, hclash]
  · intro db' hr
    induction hr with
    | nil => exact List.Pairwise.nil
    | step d w _ hok ih =>
      rw [UserKeyUnique, List.pairwise_append]
      refine ⟨ih, List.pairwise_singleton _ _, ?_⟩
      intro a ha b hb
      simp only [List.mem_singleton] at hb
      subst hb
      simp only [userKeyClash, List.any_eq_false, Bool.and_eq_true,
        decide_eq_true_eq, not_and] at hok
      intro hcontra
      exact hok a ha hcontra.1 hcontra.2

/-- Witness for C4 at concrete users: hospital 1 already has alice, so a
second alice in hospital 1 is rejected, alice in hospital 2 is accepted,
and the reachable one-user state is key-unique. -/
theorem user_compound_uniqueness_witness :
    insertUser
      [{ id := 1, hospitalId := 1, username := "alice", email := none,
         role := "admin", password := "h1", lastLogin := none }]
      { id := 2, hospitalId := 1, username := "alice", email := none,
        role := "doctor", password := "h2", lastLogin := none }
      = .error "E11000 duplicate key" := by
  exact (user_compound_uniqueness
    [{ id := 1, hospitalId := 1, username := "alice", email := none,
       role := "admin", password := "h1", lastLogin := none }]
    { id := 2, hospitalId := 1, username := "alice", email := none,
      role := "doctor", password := "h2", lastLogin := none }
    { id := 1, hospitalId := 1, username := "alice", email := none,
      role := "admin", password := "h1", lastLogin := none }
    (by decide) rfl rfl).1

/-- C7 counterexample: (hospitalId, username) on User is not the only
uniqueness constraint in the data model: Hospital.email and
PrescriptionTemplate.hospitalId also carry unique: true in the schemas. -/
theorem unique_constraints_not_only_user :
    ("Hospital", ["email"]) ∈ uniqueConstraints ∧
    ("PrescriptionTemplate", ["hospitalId"]) ∈ uniqueConstraints ∧
    ("Hospital", ["email"]) ≠ ("User", ["hospitalId", "username"]) ∧
    ("PrescriptionTemplate", ["hospitalId"]) ≠ ("User", ["hospitalId", "username"]) := by
  refine ⟨by decide, by decide, by decide, by decide⟩

/-- C7 amended: the data model carries exactly three database-enforced
uniqueness constraints: Hospital.email, the compound (hospitalId, username)
on User, and PrescriptionTemplate.hospitalId; in particular inserting a
hospital whose email already exists is rejected. -/
theorem unique_constraints_enumerated (c : String × List String)
    (hc : c ∈ uniqueConstraints) :
    (c = ("Hospital", ["email"]) ∨ c = ("User", ["hospitalId", "username"]) ∨
      c = ("PrescriptionTemplate", ["hospitalId"])) ∧
    (∀ db : List Hospital, ∀ h g : Hospital, g ∈ db → g.email = h.email →
      insertHospital db h = .error "Hospital email already registered") := by
  constructor
  · simp only [uniqueConstraints, List.mem_cons, List.mem_singleton] at hc
    rcases hc with h | h | h
    · exact Or.inl h
    · exact Or.inr (Or.inl h)
    · simp at h
      exact Or.inr (Or.inr (by simp [h]))
  · intro db h g hg he
    have hmail : db.any (fun x => x.email = h.email) = true := by
      simp only [List.any_eq_true]
      exact ⟨g, hg, by simp [he]⟩
    simp [insertHospital, hmail]

/-- Witness for the amended C7 at the Hospital.email entry. -/
theorem unique_constraints_enumerated_witness :
    ("Hospital", ["email"]) = ("Hospital", ["email"]) ∨
    ("Hospital", ["email"]) = ("User", ["hospitalId", "username"]) ∨
    ("Hospital", ["email"]) = ("PrescriptionTemplate", ["hospitalId"]) := by
  exact (unique_constraints_enumerated ("Hospital", ["email"]) (by decide)).1

/-- C1 counterexample: tenant isolation fails as stated.  With one patient
in hospital 1 and one in hospital 2, a session of hospital 1 receives the
hospital-2 patient from GET /api/export (the export query never consults
the session's hospitalId), and the un-authenticated GET /api/patients
listing returns both hospitals' patients. -/
theorem export_leaks_other_hospital :
    (mkPatient 2 2 1 "Bob" "General" 100) ∈
        apiExport [mkPatient 1 1 1 "Ann" "General" 50,
                   mkPatient 2 2 1 "Bob" "General" 100] 0 ∧
    (mkPatient 2 2 1 "Bob" "General" 100).hospitalId ≠ 1 ∧
    (mkPatient 2 2 1 "Bob" "General" 100) ∈
        apiPatients [mkPatient 1 1 1 "Ann" "General" 50,
                     mkPatient 2 2 1 "Bob" "General" 100] none none 1 50 ∧
    (mkPatient 1 1 1 "Ann" "General" 50) ∈
        apiPatients [mkPatient 1 1 1 "Ann" "General" 50,
                     mkPatient 2 2 1 "Bob" "General" 100] none none 1 50 := by
  refine ⟨by decide, by decide, by decide, by decide⟩

/-- C1 amended: GET /api/patients and GET /api/patients/:id return only
records of the session's hospital whenever the session carries a
hospitalId; GET /api/export, however, filters only by registration date
(so it returns patients of every hospital to any caller), and a session
without a hospitalId receives the unfiltered patient listing. -/
theorem patients_endpoints_hospital_scoped (db : List Patient) (h : Nat)
    (phone : Option String) (page limit i : Nat) :
    (∀ p ∈ apiPatients db (some h) phone page limit, p.hospitalId = h) ∧
    (∀ p : Patient, apiPatientById db (some h) i = some p → p.hospitalId = h) := by
  constructor
  · intro p hp
    have h1 : p ∈ sortDescBy (fun p => p.id)
        (db.filter (patientQueryMatch (some h) phone)) := by
      have := List.mem_of_mem_drop (List.mem_of_mem_take hp)
      exact this
    rw [mem_sortDescBy] at h1
    have h2 := List.of_mem_filter h1
    simp only [patientQueryMatch, Bool.and_eq_true, decide_eq_true_eq] at h2
    exact h2.1
  · intro p hp
    have h2 := List.find?_some hp
    simp only [Bool.and_eq_true, decide_eq_true_eq] at h2
    exact h2.2

/-- Witness for the amended C1 at a concrete store: the hospital-1 session
sees only hospital-1 records through the two scoped endpoints. -/
theorem patients_endpoints_hospital_scoped_witness :
    (mkPatient 1 1 1 "Ann" "General" 50).hospitalId = 1 := by
  exact (patients_endpoints_hospital_scoped
      [mkPatient 1 1 1 "Ann" "General" 50, mkPatient 2 2 1 "Bob" "General" 100]
      1 none 1 50 1).1
    (mkPatient 1 1 1 "Ann" "General" 50) (by decide)

/-- C3: a successful register-patient run assigns the new patient a token
equal to the previous count of patients of the same (hospitalId,
department) plus one, and afterwards that count has grown by exactly one. -/
theorem register_token_increments (db : List Patient) (data : RegisterData)
    (freshId now : Nat) (hname : nameBlank data.name = false) :
    ∃ np : Patient,
      (registerPatientH db data freshId now false).2.1 = some np ∧
      np.token =
        (db.filter (fun p => p.department = jsOrStr data.department "General" &&
          p.hospitalId = data.hospitalId.getD 0)).length + 1 ∧
      ((registerPatientH db data freshId now false).1.filter
          (fun p => p.department = jsOrStr data.department "General" &&
            p.hospitalId = data.hospitalId.getD 0)).length =
        (db.filter (fun p => p.department = jsOrStr data.department "General" &&
          p.hospitalId = data.hospitalId.getD 0)).length + 1 := by
  simp only [registerPatientH, hname, Bool.false_eq_true, if_false]
  refine ⟨_, rfl, rfl, ?_⟩
  rw [List.filter_append, List.length_append]
  simp

/-- Witness for C3: registering John into an empty store yields token 1 and
one patient in (hospital 1, General). -/
theorem register_token_increments_witness :
    ∃ np : Patient,
      (registerPatientH [] sampleRegData 7 100 false).2.1 = some np ∧
      np.token =
        (([] : List Patient).filter (fun p =>
          p.department = jsOrStr sampleRegData.department "General" &&
          p.hospitalId = sampleRegData.hospitalId.getD 0)).length + 1 ∧
      ((registerPatientH [] sampleRegData 7 100 false).1.filter
          (fun p => p.department = jsOrStr sampleRegData.department "General" &&
            p.hospitalId = sampleRegData.hospitalId.getD 0)).length =
        (([] : List Patient).filter (fun p =>
          p.department = jsOrStr sampleRegData.department "General" &&
          p.hospitalId = sampleRegData.hospitalId.getD 0)).length + 1 := by
  exact register_token_increments [] sampleRegData 7 100 (by decide)

/-- C5 counterexample: the claim fails on move-patient (and likewise on
update-prescription): when the database operation inside the handler
throws, the catch block only logs, so the emission list is empty and in
particular no error-carrying event reaches the originating client. -/
theorem movePatient_failure_emits_nothing :
    (movePatientH [mkPatient 1 1 1 "Ann" "General" 50] 1
        (some "doctor") none none true).2 = [] ∧
    emitsErrorToClient
      (movePatientH [mkPatient 1 1 1 "Ann" "General" 50] 1
        (some "doctor") none none true).2 = false ∧
    (updatePrescriptionH [mkPatient 1 1 1 "Ann" "General" 50] [] 1
        "rest" 5 100 true).2.2 = [] ∧
    emitsErrorToClient
      (updatePrescriptionH [mkPatient 1 1 1 "Ann" "General" 50] [] 1
        "rest" 5 100 true).2.2 = false := by
  refine ⟨rfl, rfl, rfl, rfl⟩

/-- C5 amended: on a database failure, register-patient and
create-lab-request emit an error-carrying event back to the originating
client, but move-patient and update-prescription emit nothing at all (the
catch blocks only log). -/
theorem socket_error_emission_amended (db patients : List Patient)
    (tests : List LabTest) (data : RegisterData)
    (id pid freshId now : Nat) (status doctorId pharmacyState : Option String)
    (tn did : Option String) (prescription : String) :
    emitsErrorToClient (registerPatientH db data freshId now true).2.2 = true ∧
    emitsErrorToClient (createLabRequestH patients tests pid tn did freshId now true).2 = true ∧
    emitsErrorToClient (movePatientH db id status doctorId pharmacyState true).2 = false ∧
    emitsErrorToClient
      (updatePrescriptionH patients tests id prescription freshId now true).2.2 = false := by
  refine ⟨?_, rfl, rfl, rfl⟩
  by_cases h : nameBlank data.name <;>
    simp [registerPatientH, emitsErrorToClient, h]

/-- A timestamp not past now lies at or after today's midnight exactly when
it falls on the same calendar day as now. -/
theorem ge_startOfDay_iff_sameDay (a now : Nat) (h : a ≤ now) :
    startOfDay now ≤ a ↔ sameDay a now := by
  unfold startOfDay sameDay
  constructor
  · intro hge
    exact Nat.le_antisymm (Nat.div_le_div_right h)
      ((Nat.le_div_iff_mul_le (by decide : 0 < dayMs)).mpr hge)
  · intro heq
    calc (now / dayMs) * dayMs = (a / dayMs) * dayMs := by rw [heq]
    _ ≤ a := Nat.div_mul_le_self a dayMs

/-- C8: when the new prescription text contains a lab keyword, the handler
appends exactly one new pending LabTest for the patient (ordered now) if
and only if no pending LabTest of that patient ordered on the same calendar
day already exists; otherwise the test collection is unchanged.  The
hypothesis that no stored order is in the future is the reachability
property of timestamps written by the server (every orderedAt is a past
new Date()). -/
theorem auto_lab_request_once_per_day (patients : List Patient)
    (tests : List LabTest) (p : Patient) (id freshId now : Nat)
    (prescriptionText : String)
    (hp : patients.find? (fun q => q.id = id) = some p)
    (hk : hasLabKeyword prescriptionText = true)
    (hord : ∀ t ∈ tests, t.orderedAt ≤ now) :
    ((∃ nt : LabTest,
        (updatePrescriptionH patients tests id prescriptionText freshId now false).2.1 =
          tests ++ [nt] ∧
        nt.status = "pending" ∧ nt.patientId = id ∧ nt.orderedAt = now) ↔
      ¬ ∃ t ∈ tests, t.patientId = id ∧ t.status = "pending" ∧ sameDay t.orderedAt now) ∧
    ((updatePrescriptionH patients tests id prescriptionText freshId now false).2.1 = tests ↔
      ∃ t ∈ tests, t.patientId = id ∧ t.status = "pending" ∧ sameDay t.orderedAt now) := by
  have hEiff : (tests.any (fun t =>
      t.patientId = id && (startOfDay now ≤ t.orderedAt) && t.status = "pending") = true) ↔
      ∃ t ∈ tests, t.patientId = id ∧ t.status = "pending" ∧ sameDay t.orderedAt now := by
    simp only [List.any_eq_true, Bool.and_eq_true, decide_eq_true_eq]
    constructor
    · rintro ⟨t, ht, ⟨h1, h2⟩, h3⟩
      exact ⟨t, ht, h1, h3, (ge_startOfDay_iff_sameDay _ _ (hord t ht)).mp h2⟩
    · rintro ⟨t, ht, h1, h2, h3⟩
      exact ⟨t, ht, ⟨h1, (ge_startOfDay_iff_sameDay _ _ (hord t ht)).mpr h3⟩, h2⟩
  by_cases hE : tests.any (fun t =>
      t.patientId = id && (startOfDay now ≤ t.orderedAt) && t.status = "pending") = true
  · constructor
    · rw [iff_iff_implies_and_implies]
      constructor
      · rintro ⟨nt, hnt, -⟩
        simp only [updatePrescriptionH, Bool.false_eq_true, if_false, hp, hk,
          if_true, hE] at hnt
        exact absurd (congrArg List.length hnt) (by simp)
      · intro hno
        exact absurd (hEiff.mp hE) hno
    · simp only [updatePrescriptionH, Bool.false_eq_true, if_false, hp, hk,
        if_true, hE]
      exact iff_of_true (by trivial) (hEiff.mp hE)
  · have hEf : tests.any (fun t =>
        t.patientId = id && (startOfDay now ≤ t.orderedAt) && t.status = "pending") = false :=
      Bool.eq_false_iff.mpr (fun h => hE h)
    constructor
    · simp only [updatePrescriptionH, Bool.false_eq_true, if_false, hp, hk,
        if_true, hEf]
      refine iff_of_true ⟨_, rfl, rfl, rfl, rfl⟩ (fun hex => hE (hEiff.mpr hex))
    · simp only [updatePrescriptionH, Bool.false_eq_true, if_false, hp, hk,
        if_true, hEf]
      rw [iff_iff_implies_and_implies]
      constructor
      · intro hgrow
        exact absurd (congrArg List.length hgrow) (by simp)
      · intro hex
        exact absurd (hEiff.mpr hex) (fun h => hE h)

/-- Filtering for a test id after the handler's deleteMany leaves nothing. -/
theorem filter_after_delete (testId : Nat) (l : List LabResult) :
    (l.filter (fun r => !(r.testId = testId))).filter (fun r => r.testId = testId) = [] := by
  induction l with
  | nil => rfl
  | cons a t ih =>
    by_cases h : a.testId = testId
    · simp [h, ih]
    · simp [h, ih]

/-- Every inserted result document carries the posted test id. -/
theorem filter_inserted (testId : Nat) (results : List ResultInput) :
    (results.map (resultDoc testId)).filter (fun r => r.testId = testId) =
      results.map (resultDoc testId) := by
  induction results with
  | nil => rfl
  | cons a t ih => simp [resultDoc, ih]

/-- C6: POST /api/lab/tests/:id/results deletes all results of the test and
then inserts the new ones as separate writes with no transaction.  When the
insert throws, the response is an error but the previously deleted results
are not restored: the test has no results at all and the state differs from
the initial one.  When the later status update throws, the response is an
error but the delete and the insert both stand. -/
theorem lab_results_not_atomic (st : LabState) (testId now : Nat)
    (results : List ResultInput) (r0 : LabResult)
    (hr : r0 ∈ st.results) (ht : r0.testId = testId) :
    ((saveLabResults st testId results ResultsFault.atInsert now).2 = false ∧
     ((saveLabResults st testId results ResultsFault.atInsert now).1.results.filter
        (fun r => r.testId = testId)) = [] ∧
     (saveLabResults st testId results ResultsFault.atInsert now).1 ≠ st) ∧
    ((saveLabResults st testId results ResultsFault.atStatusUpdate now).2 = false ∧
     ((saveLabResults st testId results ResultsFault.atStatusUpdate now).1.results.filter
        (fun r => r.testId = testId)) = results.map (resultDoc testId)) := by
  have hmem : r0 ∈ st.results.filter (fun r => r.testId = testId) :=
    List.mem_filter.mpr ⟨hr, by simp [ht]⟩
  refine ⟨⟨rfl, ?_, ?_⟩, rfl, ?_⟩
  · exact filter_after_delete testId st.results
  · intro heq
    have hfe := congrArg (fun s => s.results.filter (fun r => r.testId = testId)) heq
    simp only [saveLabResults] at hfe
    rw [filter_after_delete testId st.results] at hfe
    rw [← hfe] at hmem
    exact absurd hmem (List.not_mem_nil r0)
  · show ((st.results.filter (fun r => !(r.testId = testId)) ++
        results.map (resultDoc testId)).filter (fun r => r.testId = testId)) = _
    rw [List.filter_append, filter_after_delete, filter_inserted, List.nil_append]

/-- Witness for C6: a state holding one hemoglobin result for test 3 loses
it when the insert of the replacement results fails. -/
theorem lab_results_not_atomic_witness :
    ((saveLabResults hemoState 3 [] ResultsFault.atInsert 100).2 = false ∧
     ((saveLabResults hemoState 3 [] ResultsFault.atInsert 100).1.results.filter
        (fun r => r.testId = 3)) = [] ∧
     (saveLabResults hemoState 3 [] ResultsFault.atInsert 100).1 ≠ hemoState) ∧
    ((saveLabResults hemoState 3 [] ResultsFault.atStatusUpdate 100).2 = false ∧
     ((saveLabResults hemoState 3 [] ResultsFault.atStatusUpdate 100).1.results.filter
        (fun r => r.testId = 3)) = List.map (resultDoc 3) []) := by
  exact lab_results_not_atomic hemoState 3 100 [] hemoResult (by decide) rfl

/-- C9: a successful GET /api/prescription-pdf/:patientId mints and
persists the generated publicToken on a patient that lacks one, leaving
every other field of the record unchanged, and leaves the record entirely
unchanged when a publicToken is already present. -/
theorem pdf_token_frame (db : List Patient) (sh : Option Nat) (pid : Nat)
    (tokenQ : Option String) (freshTok : String) (p : Patient)
    (hfind : pdfPatientLookup db sh pid tokenQ = some p) :
    (jsTruthy p.publicToken = false →
      pdfPatientEffect db sh pid tokenQ freshTok =
        some (db.map (fun q =>
            if q.id = p.id then { p with publicToken := some freshTok } else q),
          { p with publicToken := some freshTok }) ∧
      ({ p with publicToken := some freshTok }).publicToken = some freshTok ∧
      ({ p with publicToken := some freshTok }).id = p.id ∧
      ({ p with publicToken := some freshTok }).hospitalId = p.hospitalId ∧
      ({ p with publicToken := some freshTok }).token = p.token ∧
      ({ p with publicToken := some freshTok }).name = p.name ∧
      ({ p with publicToken := some freshTok }).age = p.age ∧
      ({ p with publicToken := some freshTok }).gender = p.gender ∧
      ({ p with publicToken := some freshTok }).phone = p.phone ∧
      ({ p with publicToken := some freshTok }).address = p.address ∧
      ({ p with publicToken := some freshTok }).patientType = p.patientType ∧
      ({ p with publicToken := some freshTok }).opdIpd = p.opdIpd ∧
      ({ p with publicToken := some freshTok }).department = p.department ∧
      ({ p with publicToken := some freshTok }).doctorId = p.doctorId ∧
      ({ p with publicToken := some freshTok }).reason = p.reason ∧
      ({ p with publicToken := some freshTok }).status = p.status ∧
      ({ p with publicToken := some freshTok }).registeredAt = p.registeredAt ∧
      ({ p with publicToken := some freshTok }).appointmentDate = p.appointmentDate ∧
      ({ p with publicToken := some freshTok }).vitals = p.vitals ∧
      ({ p with publicToken := some freshTok }).prescription = p.prescription ∧
      ({ p with publicToken := some freshTok }).diagnosis = p.diagnosis ∧
      ({ p with publicToken := some freshTok }).pharmacyState = p.pharmacyState ∧
      ({ p with publicToken := some freshTok }).history = p.history ∧
      ({ p with publicToken := some freshTok }).cost = p.cost ∧
      ({ p with publicToken := some freshTok }).reports = p.reports) ∧
    (jsTruthy p.publicToken = true →
      pdfPatientEffect db sh pid tokenQ freshTok = some (db, p)) := by
  constructor
  · intro h
    refine ⟨?_, rfl, rfl, rfl, rfl, rfl, rfl, rfl, rfl, rfl, rfl, rfl, rfl,
      rfl, rfl, rfl, rfl, rfl, rfl, rfl, rfl, rfl, rfl, rfl, rfl⟩
    simp [pdfPatientEffect, hfind, h]
  · intro h
    simp [pdfPatientEffect, hfind, h]

/-- Witness for C9: the tokenless patient Ann gets exactly the generated
token persisted. -/
theorem pdf_token_frame_witness :
    pdfPatientEffect [mkPatient 1 1 1 "Ann" "General" 50] (some 1) 1 none "tok" =
      some ([{ mkPatient 1 1 1 "Ann" "General" 50 with publicToken := some "tok" }],
        { mkPatient 1 1 1 "Ann" "General" 50 with publicToken := some "tok" }) := by
  have h := (pdf_token_frame [mkPatient 1 1 1 "Ann" "General" 50] (some 1) 1 none
    "tok" (mkPatient 1 1 1 "Ann" "General" 50) (by decide)).1 (by decide)
  rw [h.1]
  simp [mkPatient]

/-- Witness for C8: for a patient with no lab tests at all, the update with
a keyword-bearing prescription appends exactly one pending test. -/
theorem auto_lab_request_once_per_day_witness :
    ((∃ nt : LabTest,
        (updatePrescriptionH [mkPatient 1 1 1 "Ann" "General" 50] [] 1
            "blood test" 5 100 false).2.1 = [] ++ [nt] ∧
        nt.status = "pending" ∧ nt.patientId = 1 ∧ nt.orderedAt = 100) ↔
      ¬ ∃ t ∈ ([] : List LabTest),
          t.patientId = 1 ∧ t.status = "pending" ∧ sameDay t.orderedAt 100) ∧
    ((updatePrescriptionH [mkPatient 1 1 1 "Ann" "General" 50] [] 1
        "blood test" 5 100 false).2.1 = [] ↔
      ∃ t ∈ ([] : List LabTest),
        t.patientId = 1 ∧ t.status = "pending" ∧ sameDay t.orderedAt 100) := by
  exact auto_lab_request_once_per_day [mkPatient 1 1 1 "Ann" "General" 50] []
    (mkPatient 1 1 1 "Ann" "General" 50) 1 5 100 "blood test"
    (by decide) (by decide) (by simp)

/-- C10: the login handler selects the first hospital in database iteration
order whose derived password matches; when that hospital's
subscriptionStatus is not active, the request fails with 403 Subscription
expired whatever the User collection and the user-password comparison
contain (so neither the username nor the user password is ever consulted),
with the session and both collections unchanged; and on every failure path
of the handler the session is left unchanged. -/
theorem login_first_match_and_failure_frame
    (verifyHospital : Nat → String → Bool) (hospitals : List Hospital)
    (req : LoginRequest) (sess : Session) (now : Nat) (h : Hospital)
    (hcreds : (req.hospitalPassword.isEmpty || req.username.isEmpty ||
      req.userPassword.isEmpty) = false)
    (hfind : hospitals.find? (fun g => verifyHospital g.id req.hospitalPassword) = some h)
    (hsub : h.subscriptionStatus ≠ "active") :
    (∀ users2 : List User, ∀ compare2 : String → String → Bool,
      apiLogin verifyHospital compare2 hospitals users2 req sess now =
        (.subscriptionExpired, sess, hospitals, users2)) ∧
    (∀ v : Nat → String → Bool, ∀ c : String → String → Bool,
      ∀ hs : List Hospital, ∀ us : List User, ∀ r : LoginRequest,
      ∀ s : Session, ∀ n : Nat,
      (apiLogin v c hs us r s n).1.isFailure = true →
      (apiLogin v c hs us r s n).2.1 = s) := by
  constructor
  · intro users2 compare2
    simp only [apiLogin, hcreds, Bool.false_eq_true, if_false, hfind]
    rw [if_pos hsub]
  · intro v c hs us r s n hfail
    by_cases h1 : (r.hospitalPassword.isEmpty || r.username.isEmpty ||
        r.userPassword.isEmpty) = true
    · simp [apiLogin, h1]
    · have h1f : (r.hospitalPassword.isEmpty || r.username.isEmpty ||
          r.userPassword.isEmpty) = false := by
        simpa using h1
      cases hf : hs.find? (fun g => v g.id r.hospitalPassword) with
      | none => simp [apiLogin, h1f, hf]
      | some hh =>
        by_cases h2 : hh.subscriptionStatus ≠ "active"
        · simp [apiLogin, h1f, hf, h2]
        · cases hu : us.find? (fun u => u.hospitalId = hh.id &&
              u.username = r.username) with
          | none => simp [apiLogin, h1f, hf, h2, hu]
          | some uu =>
            by_cases h3 : c r.userPassword uu.password
            · exfalso
              simp [apiLogin, h1f, hf, h2, hu, h3,
                LoginResponse.isFailure] at hfail
            · simp [apiLogin, h1f, hf, h2, hu, h3]

/-- Witness for C10: one expired hospital whose password matches makes the
login fail 403 without touching the session, even though the supplied
comparison function would accept any user password. -/
theorem login_first_match_witness :
    apiLogin (fun hid pw => hid = 1 && pw = "hp") (fun _ _ => true)
      [{ id := 1, name := "H1", email := "h1@x", phone := none, address := none,
         subscriptionStatus := "expired", subscriptionExpiry := none,
         lastLogin := none }]
      [] { hospitalPassword := "hp", username := "bob", userPassword := "pw" }
      { userId := none, hospitalId := none, username := none, role := none } 100 =
    (.subscriptionExpired,
     { userId := none, hospitalId := none, username := none, role := none },
     [{ id := 1, name := "H1", email := "h1@x", phone := none, address := none,
        subscriptionStatus := "expired", subscriptionExpiry := none,
        lastLogin := none }],
     []) := by
  exact (login_first_match_and_failure_frame (fun hid pw => hid = 1 && pw = "hp")
    [{ id := 1, name := "H1", email := "h1@x", phone := none, address := none,
       subscriptionStatus := "expired", subscriptionExpiry := none,
       lastLogin := none }]
    { hospitalPassword := "hp", username := "bob", userPassword := "pw" }
    { userId := none, hospitalId := none, username := none, role := none } 100
    { id := 1, name := "H1", email := "h1@x", phone := none, address := none,
      subscriptionStatus := "expired", subscriptionExpiry := none,
      lastLogin := none }
    (by decide) (by decide) (by decide)).1 [] (fun _ _ => true)

end MedFlow
